import Mathlib

/-!
Verification of the shared-expense ledger (Split Calculator, Debt Ledger,
Reminder Scheduler) of the Follow-the-money repository.

The JavaScript code is embedded shallowly:

* JS numbers are modelled as rationals (`ℚ`); `Math.round x` is `⌊x + 1/2⌋`
  (round half towards positive infinity, which is what `Math.round` does).
* Dates and timestamps are modelled as integers (milliseconds since epoch);
  `Date.now()` / `new Date()` at the moment an operation runs is passed in as
  an explicit `now : ℤ` argument.
* Mongoose documents become Lean structures carrying exactly the fields the
  schemas declare (the schemas use the default strict mode, so a document
  never stores a path outside its schema).  Optional date fields become
  `Option ℤ`.
* Code that throws becomes `Except String` (or returns an explicit success
  flag next to the resulting store state).
* The MongoDB collections become lists of documents inside `DbState`;
  queries become list filters and single-document updates map over the list
  keyed by `id` (`_id` values are unique per collection).
-/

set_option autoImplicit false

namespace FollowTheMoney

/-- JS `Math.round`: round half towards positive infinity. -/
def jsRound (q : ℚ) : ℤ := ⌊q + 1/2⌋

/-- The ubiquitous `Math.round(x * 100) / 100` idiom: round to 2 decimals. -/
def round2 (q : ℚ) : ℚ := ((jsRound (q * 100) : ℤ) : ℚ) / 100

/-! ## Expense model (Expense schema and methods, `src/unnamed/part_004`) -/

/-- One entry of `expenseSchema.splits`. -/
structure SplitR where
  user : Nat
  amount : ℚ
  percentage : ℚ
  isPaid : Bool
  deriving Repr, DecidableEq

/-- An `Expense` document (only the fields the verified operations touch). -/
structure ExpenseDoc where
  id : Nat
  amount : ℚ
  paidBy : Nat
  group : Nat
  splits : List SplitR
  splitMethod : String
  isActive : Bool
  isSettled : Bool
  deriving Repr, DecidableEq

/-- `expenseSchema.methods.calculateEqualSplits` (part_004 lines 219-230):
each participant gets `Math.round((amount / n) * 100) / 100`; the payer's own
split is created with `isPaid` already true. -/
def calculateEqualSplits (e : ExpenseDoc) (userIds : List Nat) : ExpenseDoc :=
  let splitAmount : ℚ := e.amount / (userIds.length : ℚ)
  { e with
    splits := userIds.map fun u =>
      { user := u
        amount := round2 splitAmount
        percentage := round2 (100 / (userIds.length : ℚ))
        isPaid := u == e.paidBy }
    splitMethod := "equal" }

/-- `expenseSchema.methods.calculateCustomSplits` (part_004 lines 233-250):
throws when `|sum(amounts) - amount| > 0.01`, otherwise stores the supplied
amounts verbatim. -/
def calculateCustomSplits (e : ExpenseDoc) (customSplits : List (Nat × ℚ)) :
    Except String ExpenseDoc :=
  let totalSplit : ℚ := (customSplits.map Prod.snd).sum
  if |totalSplit - e.amount| > 1/100 then
    .error "Custom split amounts must equal the total expense amount"
  else
    .ok { e with
      splits := customSplits.map fun s =>
        { user := s.1
          amount := s.2
          percentage := ((jsRound (s.2 / e.amount * 10000) : ℤ) : ℚ) / 100
          isPaid := s.1 == e.paidBy }
      splitMethod := "custom" }

/-- `expenseSchema.methods.calculatePercentageSplits` (part_004 lines 253-270):
throws when `|sum(percentages) - 100| > 0.01`, otherwise each amount is
`Math.round((amount * pct / 100) * 100) / 100`. -/
def calculatePercentageSplits (e : ExpenseDoc) (percentageSplits : List (Nat × ℚ)) :
    Except String ExpenseDoc :=
  let totalPercentage : ℚ := (percentageSplits.map Prod.snd).sum
  if |totalPercentage - 100| > 1/100 then
    .error "Percentage splits must total 100"
  else
    .ok { e with
      splits := percentageSplits.map fun s =>
        { user := s.1
          amount := round2 (e.amount * s.2 / 100)
          percentage := s.2
          isPaid := s.1 == e.paidBy }
      splitMethod := "percentage" }

/-! ## Debt model (Debt schema and methods, `src/server/src/models/Debt.js`) -/

/-- One entry of `debtSchema.partialPayments`. -/
structure PaymentR where
  amount : ℚ
  paidAt : ℤ
  note : String
  confirmedBy : Option Nat
  deriving Repr, DecidableEq

/-- A `Debt` document.  The schema declares no `status` path: payment state
lives in the booleans `isPaid` / `isActive`. -/
structure DebtDoc where
  id : Nat
  debtor : Nat
  creditor : Nat
  expense : Nat
  group : Nat
  amount : ℚ
  originalAmount : ℚ
  isPaid : Bool
  paidAt : Option ℤ
  partialPayments : List PaymentR
  reminderCount : Nat
  lastReminderSent : Option ℤ
  nextReminderDate : Option ℤ
  isActive : Bool
  dueDate : Option ℤ
  notes : String
  deriving Repr, DecidableEq

/-- Virtual `totalPaid` (Debt.js lines 166-168). -/
def totalPaid (d : DebtDoc) : ℚ := (d.partialPayments.map PaymentR.amount).sum

/-- Virtual `remainingAmount` (Debt.js lines 157-163):
`Math.max(0, amount - totalPaid)`. -/
def remainingAmount (d : DebtDoc) : ℚ := max 0 (d.amount - totalPaid d)

/-- `document.save()` runs the schema validators; the only validator relevant
to the fields the verified methods modify is `min: [0.01]` on `amount`
(Debt.js line 37).  `pre("save")` (lines 425-436) only acts on new documents
and these saves are of already-persisted ones. -/
def saveDebtDoc (d : DebtDoc) : Except String DebtDoc :=
  if d.amount < 1/100 then .error "ValidationError: Debt amount must be greater than 0"
  else .ok d

/-- `debtSchema.methods.addPartialPayment` (Debt.js lines 189-217), with the
wall-clock instant of the call passed as `now`. -/
def addPartialPayment (d : DebtDoc) (amount : ℚ) (note : String)
    (confirmedBy : Option Nat) (now : ℤ) : Except String DebtDoc :=
  if amount ≤ 0 then .error "Payment amount must be greater than 0"
  else if amount > remainingAmount d then .error "Payment amount cannot exceed remaining debt"
  else
    let d1 : DebtDoc :=
      { d with partialPayments := d.partialPayments ++ [⟨amount, now, note, confirmedBy⟩] }
    let d2 : DebtDoc :=
      if remainingAmount d1 ≤ 1/100 then { d1 with isPaid := true, paidAt := some now } else d1
    saveDebtDoc d2

/-- `debtSchema.methods.calculateNextReminder` (Debt.js lines 243-248):
next reminder 24 hours from now. -/
def calculateNextReminder (d : DebtDoc) (now : ℤ) : DebtDoc :=
  { d with nextReminderDate := some (now + 24 * 60 * 60 * 1000) }

/-- `debtSchema.pre("save")` (Debt.js lines 425-436) for a document being
saved at instant `now`; `isNew` is mongoose's new-document flag.  A `Date`
object is always truthy, so `!this.dueDate` means the field is unset. -/
def preSaveDebt (d : DebtDoc) (isNew : Bool) (now : ℤ) : DebtDoc :=
  let d1 : DebtDoc :=
    if isNew && d.dueDate.isNone then
      { d with dueDate := some (now + 7 * 24 * 60 * 60 * 1000) }
    else d
  if isNew && d1.nextReminderDate.isNone then calculateNextReminder d1 now else d1

/-- `debtSchema.statics.findNeedingReminders` (Debt.js lines 304-318):
unpaid, active debts whose `nextReminderDate` is `≤ now` or absent. -/
def findNeedingReminders (debts : List DebtDoc) (now : ℤ) : List DebtDoc :=
  debts.filter fun d =>
    !d.isPaid && d.isActive &&
      (match d.nextReminderDate with
       | some t => decide (t ≤ now)
       | none => true)

/-! ## Debt netting (`debtSchema.statics.optimizeDebts`, Debt.js lines 360-422)

The JS builds a `Map` keyed by the string `"debtor-creditor"`; we key by the
pair `(debtor, creditor)` directly.  `Map.set` overwrites an existing entry,
`Map.delete` removes it; both are mirrored on an association list. -/

/-- `debtMap.get(k)` on the association-list model of the JS `Map`. -/
def mapGet (m : List ((Nat × Nat) × DebtDoc)) (k : Nat × Nat) : Option DebtDoc :=
  (m.find? fun e => decide (e.1 = k)).map Prod.snd

/-- `debtMap.set(k, v)`: overwrite any existing entry for `k`. -/
def mapSet (m : List ((Nat × Nat) × DebtDoc)) (k : Nat × Nat) (v : DebtDoc) :
    List ((Nat × Nat) × DebtDoc) :=
  (k, v) :: m.filter fun e => decide (e.1 ≠ k)

/-- `debtMap.delete(k)`. -/
def mapDelete (m : List ((Nat × Nat) × DebtDoc)) (k : Nat × Nat) :
    List ((Nat × Nat) × DebtDoc) :=
  m.filter fun e => decide (e.1 ≠ k)

/-- `findByIdAndUpdate` / persisting an in-memory edit: update the unique
document with the given `_id`.  Mongoose `findByIdAndUpdate` does not run
validators (its default is `runValidators: false`). -/
def applyUpdate (debts : List DebtDoc) (i : Nat) (f : DebtDoc → DebtDoc) :
    List DebtDoc :=
  debts.map fun d => if d.id == i then f d else d

/-- The `for (const debt of debts)` loop of `optimizeDebts`.  `table` is the
debts collection being updated, `fetched` the documents returned by the
initial `find` (with their amounts as fetched: the loop never re-reads a
document it already modified, because a netted survivor is never re-inserted
into the map).  Returns the final collection and whether the run completed
without a rejected `save()`; a rejected save aborts the loop, keeping the
updates already applied, exactly as the awaited statements would. -/
def optimizeLoop (table : List DebtDoc) (fetched : List DebtDoc)
    (m : List ((Nat × Nat) × DebtDoc)) (now : ℤ) : List DebtDoc × Bool :=
  match fetched with
  | [] => (table, true)
  | debt :: rest =>
    let key1 : Nat × Nat := (debt.debtor, debt.creditor)
    let key2 : Nat × Nat := (debt.creditor, debt.debtor)
    match mapGet m key2 with
    | none => optimizeLoop table rest (mapSet m key1 debt) now
    | some mutualDebt =>
      let netAmount : ℚ := debt.amount - mutualDebt.amount
      if 0 < netAmount then
        -- current debt is larger: debt.amount = net; debt.save()
        match saveDebtDoc { debt with amount := netAmount } with
        | .error _ => (table, false)
        | .ok _ =>
          let t1 := applyUpdate table debt.id fun d => { d with amount := netAmount }
          let t2 := applyUpdate t1 mutualDebt.id fun d =>
            { d with isPaid := true, paidAt := some now, notes := "Netted off with mutual debt" }
          optimizeLoop t2 rest (mapDelete m key2) now
      else if netAmount < 0 then
        -- mutual debt is larger: findByIdAndUpdate(mutual, |net|); debt marked paid, debt.save()
        let t1 := applyUpdate table mutualDebt.id fun d => { d with amount := |netAmount| }
        match saveDebtDoc
            { debt with isPaid := true, paidAt := some now, notes := "Netted off with mutual debt" } with
        | .error _ => (t1, false)
        | .ok _ =>
          let t2 := applyUpdate t1 debt.id fun d =>
            { d with isPaid := true, paidAt := some now, notes := "Netted off with mutual debt" }
          optimizeLoop t2 rest (mapDelete m key2) now
      else
        -- equal amounts: both marked paid
        match saveDebtDoc
            { debt with isPaid := true, paidAt := some now,
                        notes := "Netted off with equal mutual debt" } with
        | .error _ => (table, false)
        | .ok _ =>
          let t1 := applyUpdate table debt.id fun d =>
            { d with isPaid := true, paidAt := some now,
                     notes := "Netted off with equal mutual debt" }
          let t2 := applyUpdate t1 mutualDebt.id fun d =>
            { d with isPaid := true, paidAt := some now,
                     notes := "Netted off with equal mutual debt" }
          optimizeLoop t2 rest (mapDelete m key2) now

/-- `Debt.optimizeDebts(groupId)` over the debts collection `table`:
fetch the unpaid, active debts of the group, then run the netting loop. -/
def optimizeDebts (table : List DebtDoc) (groupId : Nat) (now : ℤ) :
    List DebtDoc × Bool :=
  optimizeLoop table
    (table.filter fun d => d.group == groupId && !d.isPaid && d.isActive) [] now

/-! ## Group debt recalculation (`src/server/src/utils/debtCalculator.js`)

`calculateDebts` is written against field names that the schemas in
`src/server/src/models` do not declare: it reads `expense.splitDetails`
(the Expense schema of part_004 names the path `splits`), it deletes and
creates debts carrying a `status` field (the Debt schema has no `status`
path; payment state is the boolean `isPaid`), and the debts it creates omit
the schema-required `expense` and `originalAmount` paths.  The embedding
keeps those mismatches, because they are what the code does. -/

/-- A `Group` document (only the fields `calculateDebts` touches). -/
structure GroupDoc where
  id : Nat
  members : List Nat
  deriving Repr, DecidableEq

/-- The persisted collections the verified operations read and write. -/
structure DbState where
  groups : List GroupDoc
  expenses : List ExpenseDoc
  debts : List DebtDoc
  deriving Repr, DecidableEq

/-- Reading `expense.splitDetails` (debtCalculator.js line 42) on an Expense
document.  The Expense schema (part_004) declares `splits`, not
`splitDetails`, and mongoose strict mode stores nothing outside the schema,
so the property access yields `undefined`. -/
def splitDetails (_ : ExpenseDoc) : Option (List SplitR) := none

/-- The query clause `{ status: "pending" }` (debtCalculator.js lines 49,
140, 146) evaluated on a stored Debt document.  The Debt schema declares no
`status` path, so no stored document carries one and the clause matches
nothing. -/
def debtStatusIsPending (_ : DebtDoc) : Bool := false

/-- `memberBalances` initialisation (debtCalculator.js lines 29-31). -/
def initBalances (members : List Nat) : List (Nat × ℚ) :=
  members.map fun u => (u, 0)

/-- `memberBalances[u] += q` for a key already present (every key touched on
a completed run belongs to the initialised member set; a run that touches a
missing key aborts at the `splitDetails` read of the same iteration before
the balance object is ever consulted). -/
def balAdd (bal : List (Nat × ℚ)) (u : Nat) (q : ℚ) : List (Nat × ℚ) :=
  bal.map fun e => if e.1 == u then (e.1, e.2 + q) else e

/-- One iteration of the `expenses.forEach` balance accumulation
(debtCalculator.js lines 34-46): credit the payer with the full amount, then
debit each entry of `expense.splitDetails` — which is `undefined`, so the
`.forEach` raises a `TypeError`. -/
def accumulateExpense (bal : List (Nat × ℚ)) (e : ExpenseDoc) :
    Except String (List (Nat × ℚ)) :=
  let bal1 := balAdd bal e.paidBy e.amount
  match splitDetails e with
  | none => .error "TypeError: Cannot read properties of undefined"
  | some ss => .ok (ss.foldl (fun b s => balAdd b s.user (-s.amount)) bal1)

/-- The full `expenses.forEach` loop; a thrown `TypeError` propagates. -/
def accumulateBalances (bal : List (Nat × ℚ)) :
    List ExpenseDoc → Except String (List (Nat × ℚ))
  | [] => .ok bal
  | e :: rest =>
    match accumulateExpense bal e with
    | .error msg => .error msg
    | .ok b => accumulateBalances b rest

/-- A debt produced by `calculateOptimalDebts` before persistence. -/
structure CalcDebt where
  debtor : Nat
  creditor : Nat
  amount : ℚ
  deriving Repr, DecidableEq

/-- The debtor/creditor matching `while` loop of `calculateOptimalDebts`
(debtCalculator.js lines 99-126), written with explicit fuel so that it is
structurally recursive.  The JS walks two arrays with indices that only move
forward; here the two lists shed their heads instead.  At least one side
always sheds its head per iteration (the side attaining `min` drops to `0`,
which is `< 0.01`), so `ds.length + cs.length` fuel never runs out;
`settleAux_fuel_irrelevant` below proves the fuel choice immaterial. -/
def settleAux : Nat → List (Nat × ℚ) → List (Nat × ℚ) → List CalcDebt
  | 0, _, _ => []
  | _ + 1, [], _ => []
  | _ + 1, _ :: _, [] => []
  | fuel + 1, (du, da) :: ds, (cu, ca) :: cs =>
    ⟨du, cu, round2 (min da ca)⟩ ::
      settleAux fuel
        (if da - min da ca < 1/100 then ds else (du, da - min da ca) :: ds)
        (if ca - min da ca < 1/100 then cs else (cu, ca - min da ca) :: cs)

/-- The matching loop as called, with enough fuel for every iteration. -/
def settleLoop (ds cs : List (Nat × ℚ)) : List CalcDebt :=
  settleAux (ds.length + cs.length) ds cs

/-- Any fuel at least `ds.length + cs.length` computes the same result, so
`settleLoop` is the `while` loop itself and not a truncation of it. -/
theorem settleAux_fuel_irrelevant (f : Nat) :
    ∀ (g : Nat) (ds cs : List (Nat × ℚ)), ds.length + cs.length ≤ f →
      ds.length + cs.length ≤ g → settleAux f ds cs = settleAux g ds cs := by
  induction f with
  | zero =>
    intro g ds cs hf _
    have hds : ds = [] := by
      cases ds with
      | nil => rfl
      | cons a l => simp at hf
    have hcs : cs = [] := by
      cases cs with
      | nil => rfl
      | cons a l => simp at hf
    subst hds; subst hcs
    cases g <;> rfl
  | succ f ih =>
    intro g ds cs hf hg
    rcases ds with _ | ⟨⟨du, da⟩, ds⟩
    · cases g <;> rfl
    · rcases cs with _ | ⟨⟨cu, ca⟩, cs⟩
      · cases g with
        | zero => simp at hg
        | succ g => rfl
      · cases g with
        | zero => simp at hg
        | succ g =>
          show _ :: _ = _ :: _
          congr 1
          have hdrop : da - min da ca < 1/100 ∨ ca - min da ca < 1/100 := by
            rcases min_choice da ca with h | h <;> rw [h] <;> norm_num
          have hlen :
              (if da - min da ca < 1/100 then ds else (du, da - min da ca) :: ds).length +
                (if ca - min da ca < 1/100 then cs else (cu, ca - min da ca) :: cs).length ≤
                ds.length + cs.length + 1 := by
            by_cases h1 : da - min da ca < 1/100
            · rw [if_pos h1]
              split <;> simp_arith
            · rcases hdrop with h | h
              · exact absurd h h1
              · rw [if_neg h1, if_pos h]
                simp_arith
          simp only [List.length_cons] at hf hg
          exact ih g _ _ (by omega) (by omega)

/-- `calculateOptimalDebts(balances, members)` (debtCalculator.js lines
81-129): entries with balance `> 0.01` become debtors, entries with balance
`< -0.01` become creditors (by absolute value), in insertion order; then the
matching loop runs. -/
def calculateOptimalDebts (bal : List (Nat × ℚ)) : List CalcDebt :=
  settleLoop
    (bal.filter fun e => (1:ℚ)/100 < e.2)
    ((bal.filter fun e => e.2 < -(1:ℚ)/100).map fun e => (e.1, |e.2|))

/-- `calculateDebts(groupId)` (debtCalculator.js lines 10-73) over store
`st`, returning the resulting store and whether the call completed without
throwing.  Every error leaves the store exactly as the code does: the
balance loop throws before the `deleteMany`, and the `deleteMany` filter
never matches a stored document, so a failed creation pass also leaves the
collection intact.  The created debts omit the schema-required `expense`
and `originalAmount` paths, so every `new Debt(...).save()` is rejected by
validation. -/
def calculateDebts (st : DbState) (groupId : Nat) : DbState × Bool :=
  let expenses := st.expenses.filter fun e => e.group == groupId
  match st.groups.find? fun g => g.id == groupId with
  | none => (st, false)
  | some group =>
    match accumulateBalances (initBalances group.members) expenses with
    | .error _ => (st, false)
    | .ok bal =>
      let st1 : DbState :=
        { st with debts := st.debts.filter fun d =>
            !(d.group == groupId && debtStatusIsPending d) }
      match calculateOptimalDebts bal with
      | [] => (st1, true)
      | _ :: _ => (st1, false)

/-- `getUserDebtSummary(userId)` (debtCalculator.js lines 136-168):
`(owedToUser.amount, userOwes.amount, netBalance)`.  Both aggregations match
on `status: "pending"`. -/
def getUserDebtSummary (st : DbState) (userId : Nat) : ℚ × ℚ × ℚ :=
  let owedToUser :=
    ((st.debts.filter fun d => d.creditor == userId && debtStatusIsPending d).map
      DebtDoc.amount).sum
  let userOwes :=
    ((st.debts.filter fun d => d.debtor == userId && debtStatusIsPending d).map
      DebtDoc.amount).sum
  (owedToUser, userOwes, owedToUser - userOwes)

/-! ## Expense deletion (`deleteExpense`, `src/unnamed/part_005` lines 1293-1329) -/

/-- `deleteExpense` handler: returns the resulting store and the HTTP status
code sent.  The expense is removed with `Expense.findByIdAndDelete`, after
which `calculateDebts` runs on the expense's group; if that throws, the
handler answers 500 but the deletion has already happened. -/
def deleteExpense (st : DbState) (reqUserId : Nat) (expenseId : Nat) :
    DbState × Nat :=
  match st.expenses.find? fun e => e.id == expenseId with
  | none => (st, 404)
  | some expense =>
    if expense.paidBy != reqUserId then (st, 403)
    else
      let st1 : DbState :=
        { st with expenses := st.expenses.filter fun e => !(e.id == expenseId) }
      match calculateDebts st1 expense.group with
      | (st2, true) => (st2, 200)
      | (st2, false) => (st2, 500)

/-! ## Shared helper facts -/

/-- Spec-language "pending" debts: the unpaid ones. -/
def pendingDebts (st : DbState) : List DebtDoc := st.debts.filter fun d => !d.isPaid

/-- A fresh, unpaid, active debt document, as the sample-data and test
scripts of the repository construct one. -/
def mkDebt (i dr cr g : Nat) (amt : ℚ) : DebtDoc :=
  ⟨i, dr, cr, i, g, amt, amt, false, none, [], 0, none, none, true, none, ""⟩

theorem accumulateBalances_cons (bal : List (Nat × ℚ)) (e : ExpenseDoc)
    (rest : List ExpenseDoc) :
    accumulateBalances bal (e :: rest) =
      .error "TypeError: Cannot read properties of undefined" := by
  simp [accumulateBalances, accumulateExpense, splitDetails]

theorem calculateOptimalDebts_initBalances (members : List Nat) :
    calculateOptimalDebts (initBalances members) = [] := by
  have h : (initBalances members).filter (fun e => (1:ℚ)/100 < e.2) = [] := by
    rw [List.filter_eq_nil_iff]
    rintro ⟨u, q⟩ hm
    rcases List.mem_map.mp hm with ⟨v, _, hv⟩
    cases hv
    norm_num
  have h3 : (initBalances members).filter (fun e => e.2 < -(1:ℚ)/100) = [] := by
    rw [List.filter_eq_nil_iff]
    rintro ⟨u, q⟩ hm
    rcases List.mem_map.mp hm with ⟨v, _, hv⟩
    cases hv
    norm_num
  unfold calculateOptimalDebts
  rw [h, h3]
  rfl

/-- `calculateDebts` can never change the store: the balance pass throws on
any nonempty expense list before the `deleteMany`, the `deleteMany` filter
matches no stored document, and with no expenses the all-zero balances
produce no debts to create. -/
theorem calculateDebts_fst (st : DbState) (groupId : Nat) :
    (calculateDebts st groupId).1 = st := by
  unfold calculateDebts
  cases hg : st.groups.find? fun g => g.id == groupId with
  | none => rfl
  | some group =>
    cases hexp : st.expenses.filter fun e => e.group == groupId with
    | cons e rest => simp [accumulateBalances_cons]
    | nil =>
      simp only [accumulateBalances, calculateOptimalDebts_initBalances,
        debtStatusIsPending, Bool.and_false, Bool.not_false, List.filter_true]

/-- Claim C6: with no intervening expense change, running `calculateDebts`
twice on a group yields the same pending-debt set as running it once.
(This holds because `calculateDebts` never manages to modify the stored
debts at all.) -/
theorem calculateDebts_idempotent (st : DbState) (groupId : Nat) :
    pendingDebts (calculateDebts (calculateDebts st groupId).1 groupId).1 =
      pendingDebts (calculateDebts st groupId).1 := by
  simp [calculateDebts_fst]

/-- A group with two members, no expenses, and one stale unpaid debt. -/
def C5state : DbState := ⟨[⟨5, [0, 1]⟩], [], [mkDebt 1 1 0 5 25]⟩

/-- Claim C5: `calculateDebts` on a group with no expenses completes, yet the
pre-existing unpaid ("pending") debt of the group is *not* removed: the
`deleteMany` keyed on `status: "pending"` matches no stored document, so the
pending debts are not replaced wholesale as the spec requires. -/
theorem calculateDebts_leaves_stale_pending_debt :
    (calculateDebts C5state 5).2 = true ∧
      (calculateDebts C5state 5).1.debts = [mkDebt 1 1 0 5 25] ∧
      (mkDebt 1 1 0 5 25).isPaid = false := by
  refine ⟨?_, ?_, rfl⟩
  · simp [calculateDebts, C5state, List.find?, accumulateBalances,
      calculateOptimalDebts_initBalances]
  · rw [calculateDebts_fst]
    rfl

/-- Group {A=0, B=1, C=2}; A paid 900 for lunch, split equally. -/
def C2state : DbState :=
  ⟨[⟨10, [0, 1, 2]⟩],
   [⟨100, 900, 0, 10,
     [⟨0, 300, 0, true⟩, ⟨1, 300, 0, false⟩, ⟨2, 300, 0, false⟩],
     "equal", true, false⟩],
   []⟩

/-- Claim C2: recalculating the scenario group does not produce the debts
B→A=300 and C→A=300: `calculateDebts` throws (it reads
`expense.splitDetails`, a path the Expense schema does not declare), no debt
record is created, and A's net balance per `getUserDebtSummary` is 0, not
600 (its aggregations match on a `status` path absent from the Debt
schema). -/
theorem calculateDebts_scenario_crashes :
    (calculateDebts C2state 10).2 = false ∧
      (calculateDebts C2state 10).1.debts = [] ∧
      getUserDebtSummary (calculateDebts C2state 10).1 0 = (0, 0, 0) ∧
      getUserDebtSummary (calculateDebts C2state 10).1 1 = (0, 0, 0) := by
  refine ⟨?_, ?_, ?_, ?_⟩
  · simp [calculateDebts, C2state, List.find?, accumulateBalances_cons]
  · rw [calculateDebts_fst]
    rfl
  · rw [calculateDebts_fst]
    simp [getUserDebtSummary, debtStatusIsPending]
  · rw [calculateDebts_fst]
    simp [getUserDebtSummary, debtStatusIsPending]

/-- A lunch of 100 paid by user 0, before splitting. -/
def C1expense : ExpenseDoc := ⟨1, 100, 0, 1, [], "equal", true, false⟩

/-- Claim C1 counterexample: splitting 100 equally among three participants
gives each `round2 (100/3) = 33.33`, which sums to `99.99`, not the expense
amount: `calculateEqualSplits` rounds every participant independently and
has no last-participant remainder absorption. -/
theorem equalSplits_sum_not_exact :
    ((calculateEqualSplits C1expense [0, 1, 2]).splits.map SplitR.amount).sum =
      9999/100 ∧ ((9999 : ℚ)/100) ≠ C1expense.amount := by
  constructor
  · have h : round2 ((100 : ℚ)/3) = 3333/100 := by
      have : ((100 : ℚ)/3) * 100 + 1/2 = 20003/6 := by norm_num
      simp only [round2, jsRound, this]
      norm_num [Int.floor_eq_iff]
    simp [calculateEqualSplits, C1expense, h]
    norm_num
  · norm_num [C1expense]

/-- Claim C1 (amended): the equal method gives every participant
`round2 (amount / n)` (so the split total is `n * round2 (amount / n)`,
which need not equal the amount exactly — there is no remainder
absorption), the percentage method gives `round2 (amount * pct / 100)`,
and in both methods exactly the split whose user is the payer is created
with `isPaid = true`. -/
theorem splitCalculator_rounding_spec (e : ExpenseDoc) (userIds : List Nat)
    (_h1 : 1 ≤ userIds.length) (_h50 : userIds.length ≤ 50) (_hpos : 0 < e.amount) :
    ((calculateEqualSplits e userIds).splits.map SplitR.amount =
        userIds.map fun _ => round2 (e.amount / (userIds.length : ℚ))) ∧
    (((calculateEqualSplits e userIds).splits.map SplitR.amount).sum =
        (userIds.length : ℚ) * round2 (e.amount / (userIds.length : ℚ))) ∧
    (∀ s ∈ (calculateEqualSplits e userIds).splits, s.isPaid = (s.user == e.paidBy)) ∧
    (∀ ps : List (Nat × ℚ), ∀ e2, calculatePercentageSplits e ps = .ok e2 →
        (e2.splits.map SplitR.amount = ps.map fun p => round2 (e.amount * p.2 / 100)) ∧
        ∀ s ∈ e2.splits, s.isPaid = (s.user == e.paidBy)) := by
  have hmap : (calculateEqualSplits e userIds).splits.map SplitR.amount =
      userIds.map fun _ => round2 (e.amount / (userIds.length : ℚ)) := by
    simp only [calculateEqualSplits]
    rw [List.map_map]
    rfl
  refine ⟨hmap, ?_, ?_, ?_⟩
  · rw [hmap, List.map_const', List.sum_replicate, nsmul_eq_mul]
  · intro s hs
    simp only [calculateEqualSplits, List.mem_map] at hs
    obtain ⟨u, _, rfl⟩ := hs
    rfl
  · intro ps e2 hok
    simp only [calculatePercentageSplits] at hok
    split at hok
    · simp at hok
    · injection hok with h'
      subst h'
      refine ⟨by simp [List.map_map, Function.comp], ?_⟩
      intro s hs
      simp only [List.mem_map] at hs
      obtain ⟨p, _, rfl⟩ := hs
      rfl

/-- Witness for the amended C1 at amount 100, participants `[0, 1, 2]`. -/
theorem splitCalculator_rounding_spec_witness :
    (calculateEqualSplits C1expense [0, 1, 2]).splits.map SplitR.amount =
      [0, 1, 2].map fun _ =>
        round2 (C1expense.amount / (([0, 1, 2] : List Nat).length : ℚ)) :=
  (splitCalculator_rounding_spec C1expense [0, 1, 2] (by norm_num) (by norm_num)
    (by norm_num [C1expense])).1

/-- Claim C9: `calculateCustomSplits` fails exactly when the supplied amounts
miss the expense amount by more than 0.01 and otherwise stores them
verbatim; `calculatePercentageSplits` fails exactly when the percentages
miss 100 by more than 0.01 and otherwise derives each amount as
`round2 (amount * pct / 100)`.  (On failure both methods throw before
assigning `this.splits`, so the expense is unchanged.) -/
theorem customPercentage_validation_spec (e : ExpenseDoc) (cs ps : List (Nat × ℚ)) :
    ((∃ msg, calculateCustomSplits e cs = .error msg) ↔
      1/100 < |(cs.map Prod.snd).sum - e.amount|) ∧
    (∀ e2, calculateCustomSplits e cs = .ok e2 →
      e2.splits.map SplitR.amount = cs.map Prod.snd) ∧
    ((∃ msg, calculatePercentageSplits e ps = .error msg) ↔
      1/100 < |(ps.map Prod.snd).sum - 100|) ∧
    (∀ e2, calculatePercentageSplits e ps = .ok e2 →
      e2.splits.map SplitR.amount = ps.map fun p => round2 (e.amount * p.2 / 100)) := by
  refine ⟨?_, ?_, ?_, ?_⟩
  · simp only [calculateCustomSplits]
    split
    next h => simpa using h
    next h => simpa using h
  · intro e2 hok
    simp only [calculateCustomSplits] at hok
    split at hok
    · simp at hok
    · injection hok with h'
      subst h'
      simp [List.map_map, Function.comp]
  · simp only [calculatePercentageSplits]
    split
    next h => simpa using h
    next h => simpa using h
  · intro e2 hok
    simp only [calculatePercentageSplits] at hok
    split at hok
    · simp at hok
    · injection hok with h'
      subst h'
      simp [List.map_map, Function.comp]

/-- Witness for C9: supplied amounts summing to 50 against an expense of
100 are rejected; percentages summing to 50 are rejected. -/
theorem customPercentage_validation_spec_witness :
    (∃ msg, calculateCustomSplits C1expense [(0, 50)] = .error msg) ∧
    (∃ msg, calculatePercentageSplits C1expense [(0, 50)] = .error msg) :=
  ⟨(customPercentage_validation_spec C1expense [(0, 50)] [(0, 50)]).1.mpr
      (by norm_num [C1expense]),
   (customPercentage_validation_spec C1expense [(0, 50)] [(0, 50)]).2.2.1.mpr
      (by norm_num)⟩

/-- Claim C3 (amended): when a group's unpaid debts are exactly one debt A→B
of amount `x` and one debt B→A of amount `y` (both amounts at least the
schema minimum 0.01, and either equal or differing by at least 0.01, since
the netting update that goes through `save()` must itself pass the 0.01
minimum validator), `optimizeDebts` leaves the larger-direction debt
pending with the net amount and marks the other paid with the netting
annotation; equal amounts settle both. -/
theorem optimizeDebts_nets_mutual_pair (A B g : Nat) (x y : ℚ) (now : ℤ)
    (hx : 1/100 ≤ x) (hy : 1/100 ≤ y) (hnet : x = y ∨ 1/100 ≤ |x - y|) :
    (0 < x - y →
      optimizeDebts [mkDebt 1 A B g x, mkDebt 2 B A g y] g now =
        ([{ mkDebt 1 A B g x with amount := x - y },
          { mkDebt 2 B A g y with
              isPaid := true
              paidAt := some now
              notes := "Netted off with mutual debt" }], true)) ∧
    (x - y < 0 →
      optimizeDebts [mkDebt 1 A B g x, mkDebt 2 B A g y] g now =
        ([{ mkDebt 1 A B g x with
              isPaid := true
              paidAt := some now
              notes := "Netted off with mutual debt" },
          { mkDebt 2 B A g y with amount := y - x }], true)) ∧
    (x = y →
      optimizeDebts [mkDebt 1 A B g x, mkDebt 2 B A g y] g now =
        ([{ mkDebt 1 A B g x with
              isPaid := true
              paidAt := some now
              notes := "Netted off with equal mutual debt" },
          { mkDebt 2 B A g y with
              isPaid := true
              paidAt := some now
              notes := "Netted off with equal mutual debt" }], true)) := by
  refine ⟨fun hgt => ?_, fun hlt => ?_, fun heq => ?_⟩
  · have hneg : y - x < 0 := by linarith
    have hnn : ¬ (0 < y - x) := by linarith
    have hyv : ¬ (y < (100:ℚ)⁻¹) := by rw [inv_eq_one_div]; linarith
    simp [optimizeDebts, optimizeLoop, mapGet, mapSet, mapDelete, applyUpdate,
      saveDebtDoc, mkDebt, List.find?, hnn, hneg, hyv, abs_of_neg hneg]
  · have hpos2 : 0 < y - x := by linarith
    have hsave : ¬ (y - x < (100:ℚ)⁻¹) := by
      rw [inv_eq_one_div]
      rcases hnet with h | h
      · exfalso; linarith
      · rw [abs_of_neg (by linarith : x - y < 0)] at h; linarith
    simp [optimizeDebts, optimizeLoop, mapGet, mapSet, mapDelete, applyUpdate,
      saveDebtDoc, mkDebt, List.find?, hpos2, hsave]
  · subst heq
    have hxv : ¬ (x < (100:ℚ)⁻¹) := by rw [inv_eq_one_div]; linarith
    simp [optimizeDebts, optimizeLoop, mapGet, mapSet, mapDelete, applyUpdate,
      saveDebtDoc, mkDebt, List.find?, hxv]

/-- Witness for the amended C3 at the spec scenarios A→B=100, B→A=40
(net 60 stays pending, the reverse debt is netted) and A→B=B→A=50 (both
settle). -/
theorem optimizeDebts_nets_mutual_pair_witness :
    optimizeDebts [mkDebt 1 0 1 5 100, mkDebt 2 1 0 5 40] 5 0 =
      ([{ mkDebt 1 0 1 5 100 with amount := 60 },
        { mkDebt 2 1 0 5 40 with
            isPaid := true
            paidAt := some 0
            notes := "Netted off with mutual debt" }], true) ∧
    optimizeDebts [mkDebt 1 0 1 5 50, mkDebt 2 1 0 5 50] 5 0 =
      ([{ mkDebt 1 0 1 5 50 with
            isPaid := true
            paidAt := some 0
            notes := "Netted off with equal mutual debt" },
        { mkDebt 2 1 0 5 50 with
            isPaid := true
            paidAt := some 0
            notes := "Netted off with equal mutual debt" }], true) := by
  constructor
  · have h := (optimizeDebts_nets_mutual_pair 0 1 5 100 40 0 (by norm_num)
      (by norm_num) (Or.inr (by norm_num))).1 (by norm_num)
    have e1 : (100:ℚ) - 40 = 60 := by norm_num
    rw [e1] at h
    exact h
  · exact (optimizeDebts_nets_mutual_pair 0 1 5 50 50 0 (by norm_num)
      (by norm_num) (Or.inl rfl)).2.2 rfl

/-- Unpaid debts of group 5: A→B 100 (expense 1), A→B 50 (expense 2), and
B→A 40 (expense 3).  The uniqueness index is on `(debtor, creditor,
expense)`, so several unpaid debts between the same ordered pair coexist. -/
def C3state : List DebtDoc := [mkDebt 1 0 1 5 100, mkDebt 2 0 1 5 50, mkDebt 3 1 0 5 40]

/-- Claim C3 counterexample to the claim as stated: in `C3state`, the debts
with ids 1 (A→B, 100) and 3 (B→A, 40) are an unpaid mutual pair with
`x - y = 60 > 0`, so the claim requires the A→B debt to end pending with
amount 60; after `optimizeDebts` it still has amount 100 (the second A→B
debt overwrote the first in the pairing map, and only the overwriting debt
was netted against B→A). -/
theorem optimizeDebts_pair_overwritten_not_netted :
    ((optimizeDebts C3state 5 0).1.find? fun d => decide (d.id = 1)).map
        (fun d => (d.amount, d.isPaid)) = some (100, false) ∧
    (((optimizeDebts C3state 5 0).1.find? fun d => decide (d.id = 1)).map
        (fun d => d.amount)) ≠ some 60 ∧
    ((optimizeDebts C3state 5 0).1.find? fun d => decide (d.id = 3)).map
        (fun d => d.isPaid) = some true ∧
    (optimizeDebts C3state 5 0).2 = true := by
  norm_num [optimizeDebts, C3state, optimizeLoop, mapGet, mapSet, mapDelete,
    applyUpdate, saveDebtDoc, mkDebt, List.find?]

/-- Claim C4: `addPartialPayment` rejects non-positive payments and
payments exceeding the outstanding amount with an invalid-payment error
(leaving the document untouched, since the throw precedes any mutation);
on success it appends exactly one payment record, the outstanding amount
drops by exactly the payment, stays non-negative (it is a `Math.max` with
0), and once it falls to at most 0.01 the debt is marked paid with
`paidAt` stamped. -/
theorem addPartialPayment_spec (d : DebtDoc) (amt : ℚ) (note : String)
    (confirmedBy : Option Nat) (now : ℤ) :
    0 ≤ remainingAmount d ∧
    (amt ≤ 0 ∨ remainingAmount d < amt →
      ∃ msg, addPartialPayment d amt note confirmedBy now = .error msg) ∧
    (∀ d2, addPartialPayment d amt note confirmedBy now = .ok d2 →
      d2.partialPayments = d.partialPayments ++ [⟨amt, now, note, confirmedBy⟩] ∧
      remainingAmount d2 = remainingAmount d - amt ∧
      0 ≤ remainingAmount d2 ∧
      (remainingAmount d2 ≤ 1/100 → d2.isPaid = true ∧ d2.paidAt = some now)) := by
  refine ⟨le_max_left _ _, ?_, ?_⟩
  · intro h
    by_cases h0 : amt ≤ 0
    · exact ⟨"Payment amount must be greater than 0", by simp [addPartialPayment, h0]⟩
    · have hlt : remainingAmount d < amt := by
        rcases h with h | h
        · exact absurd h h0
        · exact h
      exact ⟨"Payment amount cannot exceed remaining debt",
        by simp [addPartialPayment, h0, hlt]⟩
  · intro d2 hok
    have h0 : ¬ amt ≤ 0 := by
      intro h0
      simp [addPartialPayment, h0] at hok
    have hlt : ¬ remainingAmount d < amt := by
      intro hlt
      simp [addPartialPayment, h0, hlt] at hok
    have hlt2 : ¬ amt > remainingAmount d := hlt
    have hAT : amt ≤ d.amount - totalPaid d := by
      have h1 : amt ≤ remainingAmount d := not_lt.mp hlt
      rcases le_max_iff.mp h1 with h2 | h2
      · exact absurd h2 h0
      · exact h2
    have h0pos : 0 < amt := not_le.mp h0
    have hrem : remainingAmount d = d.amount - totalPaid d :=
      max_eq_right (by linarith)
    have hT1 : totalPaid
        { d with partialPayments := d.partialPayments ++ [⟨amt, now, note, confirmedBy⟩] } =
        totalPaid d + amt := by
      simp [totalPaid]
    have hrem1 : remainingAmount
        { d with partialPayments := d.partialPayments ++ [⟨amt, now, note, confirmedBy⟩] } =
        remainingAmount d - amt := by
      rw [remainingAmount, hT1, hrem]
      simp only []
      rw [max_eq_right (by linarith)]
      ring
    simp only [addPartialPayment, if_neg h0, if_neg hlt2, saveDebtDoc] at hok
    by_cases hif : remainingAmount
        { d with partialPayments := d.partialPayments ++ [⟨amt, now, note, confirmedBy⟩] } ≤ 1/100
    · rw [if_pos hif] at hok
      split at hok
      · simp at hok
      · injection hok with hok
        subst hok
        exact ⟨rfl, hrem1, le_max_left _ _, fun _ => ⟨rfl, rfl⟩⟩
    · rw [if_neg hif] at hok
      split at hok
      · simp at hok
      · injection hok with hok
        subst hok
        refine ⟨rfl, hrem1, ?_, fun hc => absurd hc hif⟩
        exact le_max_left _ _

/-- The debt of 100 after a partial payment of 30 recorded at instant 7. -/
def C4paidResult : DebtDoc :=
  { mkDebt 1 0 1 5 100 with partialPayments := [⟨30, 7, "note", none⟩] }

/-- Witness for C4: a payment of 0 is rejected; a payment of 30 against an
outstanding 100 appends one record and leaves 70 outstanding. -/
theorem addPartialPayment_spec_witness :
    (∃ msg, addPartialPayment (mkDebt 1 0 1 5 100) 0 "" none 7 = .error msg) ∧
    C4paidResult.partialPayments =
      (mkDebt 1 0 1 5 100).partialPayments ++ [⟨30, 7, "note", none⟩] ∧
    remainingAmount C4paidResult = remainingAmount (mkDebt 1 0 1 5 100) - 30 := by
  have hok : addPartialPayment (mkDebt 1 0 1 5 100) 30 "note" none 7 = .ok C4paidResult := by
    norm_num [addPartialPayment, remainingAmount, totalPaid, mkDebt, saveDebtDoc,
      C4paidResult, max_def]
  have h2 := (addPartialPayment_spec (mkDebt 1 0 1 5 100) 30 "note" none 7).2.2
    C4paidResult hok
  exact ⟨(addPartialPayment_spec (mkDebt 1 0 1 5 100) 0 "" none 7).2.1 (Or.inl le_rfl),
    h2.1, h2.2.1⟩

/-- An expense of 60 paid by user 0 in group 7, split with user 1. -/
def C7expense : ExpenseDoc :=
  ⟨100, 60, 0, 7, [⟨0, 30, 0, true⟩, ⟨1, 30, 0, false⟩], "equal", true, false⟩

/-- Store holding group 7 and the single expense above. -/
def C7state : DbState := ⟨[⟨7, [0, 1]⟩], [C7expense], []⟩

/-- Claim C7 counterexample: when the payer deletes their expense, the
record is physically removed from the store (`Expense.findByIdAndDelete`):
afterwards the expense collection is empty, so no record with
`isActive = false` remains, contrary to the logical-deletion claim. -/
theorem deleteExpense_hard_deletes :
    (deleteExpense C7state 0 100).2 = 200 ∧
    (deleteExpense C7state 0 100).1.expenses = [] := by
  constructor <;>
    simp [deleteExpense, C7state, C7expense, List.find?, calculateDebts,
      accumulateBalances, calculateOptimalDebts_initBalances, debtStatusIsPending]

/-- Claim C7 (amended): for an existing expense deleted by its payer, the
handler removes the record bodily from the collection (no document with
that id survives) and then runs the group debt recalculation
(`calculateDebts`) on the expense's group, the final store being whatever
that recalculation leaves. -/
theorem deleteExpense_spec (st : DbState) (u i : Nat) (e : ExpenseDoc)
    (hfind : st.expenses.find? (fun x => x.id == i) = some e) (hpay : e.paidBy = u) :
    (deleteExpense st u i).1 =
      (calculateDebts { st with expenses := st.expenses.filter fun x => !(x.id == i) }
        e.group).1 ∧
    ∀ x ∈ (deleteExpense st u i).1.expenses, x.id ≠ i := by
  have hD : (deleteExpense st u i).1 =
      { st with expenses := st.expenses.filter fun x => !(x.id == i) } := by
    have hb : (e.paidBy != u) = false := by simp [hpay]
    simp only [deleteExpense, hfind, hb, Bool.false_eq_true, if_false]
    rcases hcd : calculateDebts
        { st with expenses := st.expenses.filter fun x => !(x.id == i) } e.group with ⟨st2, b⟩
    have h1 := calculateDebts_fst
      { st with expenses := st.expenses.filter fun x => !(x.id == i) } e.group
    rw [hcd] at h1
    cases b <;> simpa using h1
  constructor
  · rw [hD, calculateDebts_fst]
  · rw [hD]
    intro x hx
    have := (List.mem_filter.mp hx).2
    simpa using this

/-- Witness for the amended C7: deleting expense 100 from `C7state` as its
payer leaves exactly the store that `calculateDebts` produces on the
expense-less remainder. -/
theorem deleteExpense_spec_witness :
    (deleteExpense C7state 0 100).1 =
      (calculateDebts
        { C7state with expenses := C7state.expenses.filter fun x => !(x.id == 100) }
        C7expense.group).1 :=
  (deleteExpense_spec C7state 0 100 C7expense rfl rfl).1

/-- Claim C8 (amended): `findNeedingReminders` returns exactly the unpaid,
active debts whose `nextReminderDate` is at most `now` or unset; in
particular every unpaid, active debt with a past due date *and* such a
reminder date appears.  (Without the reminder-date condition the second
part is false: see the counterexample.) -/
theorem findNeedingReminders_spec (debts : List DebtDoc) (now : ℤ) (d : DebtDoc) :
    (d ∈ findNeedingReminders debts now ↔
      d ∈ debts ∧ d.isPaid = false ∧ d.isActive = true ∧
        (d.nextReminderDate = none ∨ ∃ t, d.nextReminderDate = some t ∧ t ≤ now)) ∧
    (d ∈ debts → d.isPaid = false → d.isActive = true →
      (∃ t0, d.dueDate = some t0 ∧ t0 < now) →
      (d.nextReminderDate = none ∨ ∃ t, d.nextReminderDate = some t ∧ t ≤ now) →
      d ∈ findNeedingReminders debts now) := by
  have hmain : d ∈ findNeedingReminders debts now ↔
      d ∈ debts ∧ d.isPaid = false ∧ d.isActive = true ∧
        (d.nextReminderDate = none ∨ ∃ t, d.nextReminderDate = some t ∧ t ≤ now) := by
    rw [findNeedingReminders, List.mem_filter]
    cases hnr : d.nextReminderDate <;> simp [hnr, and_assoc]
  exact ⟨hmain, fun h1 h2 h3 _ h5 => hmain.mpr ⟨h1, h2, h3, h5⟩⟩

/-- An unpaid, active, overdue debt whose next reminder is in the future:
due at instant 0, queried at instant 1000, next reminder at 2000. -/
def C8debt : DebtDoc :=
  { mkDebt 1 1 0 5 25 with dueDate := some 0, nextReminderDate := some 2000 }

/-- Claim C8 counterexample: this overdue (`dueDate` in the past), unpaid,
active debt does *not* appear in `findNeedingReminders`, because its
`nextReminderDate` lies beyond `now`; the claim required every past-due
unpaid debt to appear. -/
theorem findNeedingReminders_misses_overdue_debt :
    C8debt.dueDate = some 0 ∧ (0:ℤ) < 1000 ∧ C8debt.isPaid = false ∧
      C8debt.isActive = true ∧ C8debt ∉ findNeedingReminders [C8debt] 1000 := by
  refine ⟨rfl, by norm_num, rfl, rfl, ?_⟩
  simp [findNeedingReminders, C8debt, mkDebt]

/-- The same overdue debt but with its reminder date unset. -/
def C8okDebt : DebtDoc := { mkDebt 1 1 0 5 25 with dueDate := some 0 }

/-- Witness for the amended C8: an overdue, unpaid, active debt with no
`nextReminderDate` is selected. -/
theorem findNeedingReminders_spec_witness :
    C8okDebt ∈ findNeedingReminders [C8okDebt] 1000 :=
  (findNeedingReminders_spec [C8okDebt] 1000 C8okDebt).2 (by simp) rfl rfl
    ⟨0, rfl, by norm_num⟩ (Or.inl rfl)

/-- Claim C10: saving a new debt stamps a missing `dueDate` with
creation time plus 7 days and a missing `nextReminderDate` with creation
time plus 24 hours; no new debt leaves `save` without a
`nextReminderDate`. -/
theorem preSaveDebt_defaults (d : DebtDoc) (now : ℤ) :
    (d.dueDate = none →
      (preSaveDebt d true now).dueDate = some (now + 7 * 24 * 60 * 60 * 1000)) ∧
    (d.nextReminderDate = none →
      (preSaveDebt d true now).nextReminderDate = some (now + 24 * 60 * 60 * 1000)) ∧
    (preSaveDebt d true now).nextReminderDate ≠ none := by
  unfold preSaveDebt calculateNextReminder
  cases hd : d.dueDate <;> cases hn : d.nextReminderDate <;> simp [hd, hn]

/-- Witness for C10 on a fresh debt saved at instant 0. -/
theorem preSaveDebt_defaults_witness :
    (preSaveDebt (mkDebt 1 0 1 5 100) true 0).dueDate =
      some (0 + 7 * 24 * 60 * 60 * 1000) ∧
    (preSaveDebt (mkDebt 1 0 1 5 100) true 0).nextReminderDate =
      some (0 + 24 * 60 * 60 * 1000) :=
  ⟨(preSaveDebt_defaults (mkDebt 1 0 1 5 100) 0).1 rfl,
   (preSaveDebt_defaults (mkDebt 1 0 1 5 100) 0).2.1 rfl⟩

end FollowTheMoney
